import Mathlib

/-!
Verification development for `jules-scratch/verification/verify_map.py`.

The script is a linear sequence of Playwright library calls wrapped in the
`with sync_playwright() as p:` context manager:

  1. `browser = p.chromium.launch()`
  2. `page = browser.new_page()`
  3. `page.on("console", lambda msg: print(f"CONSOLE: ..."))`
  4. `html_file_path = os.path.abspath('jules-scratch/verification/index.html')`
  5. `page.goto(f'file://...')`
  6. `page.wait_for_timeout(2000)`
  7. `page.screenshot(path='jules-scratch/verification/verification.png')`
  8. `browser.close()`  (and context-manager exit stops Playwright)

We embed the script as a deterministic function of an environment `Env` that
records, for each fallible library call, whether it succeeds or raises (with an
opaque exception payload, modelled as a `Nat`), together with the process's
current working directory and the console messages the page delivers to the
registered observer.  The result records the trace of library calls made, the
propagated exception (if any), the final filesystem, the lines written to
standard output, and whether the browser was acquired.
-/

/-- A filesystem: absolute path to file content (content abstracted as a `Nat`);
`none` means the file is absent. -/
abbrev FS := String → Option Nat

/-- A browser console message, mirroring the `msg` object passed to the
`page.on("console", ...)` callback; `text` mirrors `msg.text`. -/
structure ConsoleMessage where
  text : String
deriving DecidableEq

/-- Observable library calls made by `run`, in the order they are issued.
`releaseBrowser` is recorded when the browser process is actually released,
whether by the explicit `browser.close()` on the success path or by the
`sync_playwright` context-manager exit (`p.stop()`) on an exception path;
releasing an already-released browser is a no-op and is not recorded. -/
inductive Event where
  | launch : Event
  | newPage : Event
  | registerConsoleObserver : Event
  | resolvePath : String → Event
  | goto : String → Event
  | waitForTimeout : Nat → Event
  | screenshot : String → Bool → Event
  | releaseBrowser : Event
deriving DecidableEq

/-- The oracle for one invocation: the process working directory, the console
messages the page delivers to the observer (once registered), and, for each of
the seven fallible steps, `none` for success or `some e` for raising the opaque
exception `e`.  `screenshotBytes` abstracts the PNG content written on a
successful capture. -/
structure Env where
  cwd : String
  consoleMsgs : List ConsoleMessage
  launchErr : Option Nat
  newPageErr : Option Nat
  registerErr : Option Nat
  resolveErr : Option Nat
  gotoErr : Option Nat
  waitErr : Option Nat
  screenshotErr : Option Nat
  screenshotBytes : Nat

/-- Everything observable about one invocation of `run`. -/
structure RunResult where
  trace : List Event
  result : Except Nat Unit
  fs : FS
  stdout : List String
  acquired : Bool

/-- The fixed relative input path of line 13 of the script:
`os.path.abspath('jules-scratch/verification/index.html')`. -/
def inputRelPath : String := "jules-scratch/verification/index.html"

/-- The fixed relative output path of line 22 of the script:
`page.screenshot(path='jules-scratch/verification/verification.png')`. -/
def outputPath : String := "jules-scratch/verification/verification.png"

/-- The fixed settle delay of line 19: `page.wait_for_timeout(2000)` (ms). -/
def settleDelayMs : Nat := 2000

/-- Model of `os.path.abspath(rel)` for a relative path: join the current
working directory with the path.  (Python computes `normpath(join(getcwd(), rel))`;
for the already-normalised fixed literals used by the script, and a normalised
absolute `cwd`, this is exactly `cwd ++ "/" ++ rel`.) -/
def abspath (cwd rel : String) : String := cwd ++ "/" ++ rel

/-- The `f'file://{html_file_path}'` URL construction of line 16. -/
def fileUrl (p : String) : String := "file://" ++ p

/-- The console observer of line 10:
`lambda msg: print(f"CONSOLE: {msg.text}")` — the list of stdout lines the
callback writes for one delivered message. -/
def consoleObserver (msg : ConsoleMessage) : List String :=
  ["CONSOLE: " ++ msg.text]

/-- Shallow embedding of `run()` (lines 4-24 of `verify_map.py`).  Each
fallible library call is consulted in program order; the first failure
propagates as the result, the context-manager exit releases the browser if it
was acquired, and no further calls are made.  On the screenshot call the
Playwright `full_page` argument is not passed by the script, so the library
default `full_page=False` (viewport-only capture) applies; a successful capture
writes `screenshotBytes` at the output path resolved against the working
directory (Playwright resolves a relative `path` against the current working
directory), overwriting whatever was there. -/
def run (env : Env) (fs : FS) : RunResult :=
  match env.launchErr with
  | some e => ⟨[.launch], .error e, fs, [], false⟩
  | none =>
    match env.newPageErr with
    | some e => ⟨[.launch, .newPage, .releaseBrowser], .error e, fs, [], true⟩
    | none =>
      match env.registerErr with
      | some e =>
        ⟨[.launch, .newPage, .registerConsoleObserver, .releaseBrowser],
          .error e, fs, [], true⟩
      | none =>
        let out := (env.consoleMsgs.map consoleObserver).flatten
        match env.resolveErr with
        | some e =>
          ⟨[.launch, .newPage, .registerConsoleObserver,
              .resolvePath inputRelPath, .releaseBrowser],
            .error e, fs, out, true⟩
        | none =>
          let url := fileUrl (abspath env.cwd inputRelPath)
          match env.gotoErr with
          | some e =>
            ⟨[.launch, .newPage, .registerConsoleObserver,
                .resolvePath inputRelPath, .goto url, .releaseBrowser],
              .error e, fs, out, true⟩
          | none =>
            match env.waitErr with
            | some e =>
              ⟨[.launch, .newPage, .registerConsoleObserver,
                  .resolvePath inputRelPath, .goto url,
                  .waitForTimeout settleDelayMs, .releaseBrowser],
                .error e, fs, out, true⟩
            | none =>
              match env.screenshotErr with
              | some e =>
                ⟨[.launch, .newPage, .registerConsoleObserver,
                    .resolvePath inputRelPath, .goto url,
                    .waitForTimeout settleDelayMs,
                    .screenshot outputPath false, .releaseBrowser],
                  .error e, fs, out, true⟩
              | none =>
                ⟨[.launch, .newPage, .registerConsoleObserver,
                    .resolvePath inputRelPath, .goto url,
                    .waitForTimeout settleDelayMs,
                    .screenshot outputPath false, .releaseBrowser],
                  .ok (),
                  fun q =>
                    if q = abspath env.cwd outputPath then
                      some env.screenshotBytes
                    else fs q,
                  out, true⟩

/-- The module top level (lines 26-27): `run()` executes only under the
`if __name__ == "__main__":` guard; importing the module performs no call. -/
def moduleMain (name : String) (env : Env) (fs : FS) : Option RunResult :=
  if name = "__main__" then some (run env fs) else none

/-- All seven fallible steps succeed. -/
def allOk (env : Env) : Prop :=
  env.launchErr = none ∧ env.newPageErr = none ∧ env.registerErr = none ∧
    env.resolveErr = none ∧ env.gotoErr = none ∧ env.waitErr = none ∧
    env.screenshotErr = none

instance (env : Env) : Decidable (allOk env) := by
  unfold allOk
  infer_instance

/-- The full trace of a fully successful invocation: the eight steps in
program order. -/
def canonicalTrace (env : Env) : List Event :=
  [.launch, .newPage, .registerConsoleObserver, .resolvePath inputRelPath,
    .goto (fileUrl (abspath env.cwd inputRelPath)),
    .waitForTimeout settleDelayMs, .screenshot outputPath false,
    .releaseBrowser]

/-- The empty filesystem, used for concrete instantiations. -/
def fs0 : FS := fun _ => none

/-- A concrete environment in which every library call succeeds. -/
def envOk : Env :=
  ⟨"/repo", [⟨"ready"⟩], none, none, none, none, none, none, none, 7⟩

/-- A concrete environment in which navigation (`page.goto`) raises. -/
def envGotoFail : Env :=
  ⟨"/repo", [⟨"ready"⟩], none, none, none, none, some 3, none, none, 7⟩

/-- A concrete environment identical to `envOk` except for its working
directory. -/
def envOtherCwd : Env :=
  ⟨"/other", [⟨"ready"⟩], none, none, none, none, none, none, none, 7⟩

/-- A filesystem in which every path already holds a file (content `99`),
used to exhibit overwriting. -/
def fsPrev : FS := fun _ => some 99

/-- On a fully successful environment, `run` is the canonical trace, the
`None` return, the screenshot write at the cwd-resolved output path, and one
stdout line per delivered console message. -/
theorem run_allOk (env : Env) (fs : FS) (h : allOk env) :
    run env fs =
      ⟨canonicalTrace env, .ok (),
        fun q =>
          if q = abspath env.cwd outputPath then some env.screenshotBytes
          else fs q,
        (env.consoleMsgs.map consoleObserver).flatten, true⟩ := by
  obtain ⟨h1, h2, h3, h4, h5, h6, h7⟩ := h
  simp [run, h1, h2, h3, h4, h5, h6, h7, canonicalTrace]

/-- Flattening the per-message observer output yields exactly one prefixed
line per message. -/
theorem flatten_consoleObserver (l : List ConsoleMessage) :
    (l.map consoleObserver).flatten = l.map fun m => "CONSOLE: " ++ m.text := by
  induction l with
  | nil => rfl
  | cons m t ih => simp [consoleObserver, ih]

/-- The working directory is recoverable from the resolved absolute path:
`abspath` with a fixed relative part is injective in the cwd. -/
theorem abspath_cwd_injective (c1 c2 rel : String)
    (h : abspath c1 rel = abspath c2 rel) : c1 = c2 := by
  have hd := congrArg String.data h
  simp only [abspath, String.data_append, List.append_assoc] at hd
  exact String.ext (List.append_left_injective _ hd)

/-- C1, counterexample: on an environment in which every step succeeds (so in
particular steps 1-6 succeed), the run performs no full-page capture at all
(the `full_page` occurrence count in the trace is zero): the script omits
Playwright's `full_page` argument, whose default is `False`, so the capture at
line 22 is viewport-only, contradicting the claim that a full-page screenshot
is captured. -/
theorem screenshot_fullPage_counterexample :
    allOk envOk ∧
      ((run envOk fs0).trace.count (Event.screenshot outputPath true)) = 0 ∧
      ((run envOk fs0).trace.count (Event.screenshot outputPath false)) = 1 := by
  refine ⟨by decide, ?_, ?_⟩ <;> decide

/-- C1 (amended): step 7 captures a viewport screenshot (Playwright's
`full_page` default is `False`, so not a full-page capture) and writes it to
the fixed output path `jules-scratch/verification/verification.png` (resolved
against the working directory), overwriting any file already present there,
for every invocation in which steps 1-7 all succeed. -/
theorem screenshot_viewport_writes_output (env : Env) (fs : FS)
    (h : allOk env) :
    (Event.screenshot outputPath false) ∈ (run env fs).trace ∧
      (run env fs).fs (abspath env.cwd outputPath) = some env.screenshotBytes := by
  rw [run_allOk env fs h]
  refine ⟨?_, ?_⟩
  · simp [canonicalTrace]
  · simp

/-- C1 witness: on the all-success environment, starting from a filesystem
where every path already holds a file, the screenshot event occurs and the
output path holds the freshly written bytes. -/
theorem screenshot_viewport_writes_output_witness :
    (Event.screenshot outputPath false) ∈ (run envOk fsPrev).trace ∧
      (run envOk fsPrev).fs (abspath envOk.cwd outputPath) = some envOk.screenshotBytes :=
  screenshot_viewport_writes_output envOk fsPrev (by decide)

/-- C2: whenever the browser is successfully acquired, it is released exactly
once before `run` returns or propagates, on every exit path, including the
paths where navigation, the wait or the screenshot raises after acquisition. -/
theorem browser_released_exactly_once (env : Env) (fs : FS)
    (h : (run env fs).acquired = true) :
    ((run env fs).trace.count Event.releaseBrowser) = 1 := by
  rcases h1 : env.launchErr with _ | e1 <;>
    rcases h2 : env.newPageErr with _ | e2 <;>
    rcases h3 : env.registerErr with _ | e3 <;>
    rcases h4 : env.resolveErr with _ | e4 <;>
    rcases h5 : env.gotoErr with _ | e5 <;>
    rcases h6 : env.waitErr with _ | e6 <;>
    rcases h7 : env.screenshotErr with _ | e7 <;>
    simp_all [run, List.count_cons]

/-- C2 witness: on the environment where navigation raises after acquisition,
the browser is released exactly once. -/
theorem browser_released_exactly_once_witness :
    ((run envGotoFail fs0).trace.count Event.releaseBrowser) = 1 :=
  browser_released_exactly_once envGotoFail fs0 (by decide)

/-- C3: `run` performs no local error recovery: the first failing step's
exception propagates out unchanged (for each of the seven fallible steps, with
all earlier steps succeeding), and when every step succeeds the run returns
the `None` value (modelled as `Except.ok ()`). -/
theorem failures_propagate_unchanged (env : Env) (fs : FS) :
    (∀ e, env.launchErr = some e → (run env fs).result = .error e) ∧
      (∀ e, env.launchErr = none → env.newPageErr = some e →
        (run env fs).result = .error e) ∧
      (∀ e, env.launchErr = none → env.newPageErr = none →
        env.registerErr = some e → (run env fs).result = .error e) ∧
      (∀ e, env.launchErr = none → env.newPageErr = none →
        env.registerErr = none → env.resolveErr = some e →
        (run env fs).result = .error e) ∧
      (∀ e, env.launchErr = none → env.newPageErr = none →
        env.registerErr = none → env.resolveErr = none →
        env.gotoErr = some e → (run env fs).result = .error e) ∧
      (∀ e, env.launchErr = none → env.newPageErr = none →
        env.registerErr = none → env.resolveErr = none →
        env.gotoErr = none → env.waitErr = some e →
        (run env fs).result = .error e) ∧
      (∀ e, env.launchErr = none → env.newPageErr = none →
        env.registerErr = none → env.resolveErr = none →
        env.gotoErr = none → env.waitErr = none →
        env.screenshotErr = some e → (run env fs).result = .error e) ∧
      (allOk env → (run env fs).result = .ok ()) := by
  refine ⟨?_, ?_, ?_, ?_, ?_, ?_, ?_, ?_⟩
  · intro e h1
    simp [run, h1]
  · intro e h1 h2
    simp [run, h1, h2]
  · intro e h1 h2 h3
    simp [run, h1, h2, h3]
  · intro e h1 h2 h3 h4
    simp [run, h1, h2, h3, h4]
  · intro e h1 h2 h3 h4 h5
    simp [run, h1, h2, h3, h4, h5]
  · intro e h1 h2 h3 h4 h5 h6
    simp [run, h1, h2, h3, h4, h5, h6]
  · intro e h1 h2 h3 h4 h5 h6 h7
    simp [run, h1, h2, h3, h4, h5, h6, h7]
  · intro h
    rw [run_allOk env fs h]

/-- C3 witness: on the environment where navigation raises exception `3`, the
run's result is exactly that exception. -/
theorem failures_propagate_unchanged_witness :
    (run envGotoFail fs0).result = .error 3 :=
  (failures_propagate_unchanged envGotoFail fs0).2.2.2.2.1 3 rfl rfl rfl rfl rfl

/-- C4: if navigation raises, the run aborts before the screenshot step: no
screenshot call appears in the trace and the filesystem is left completely
untouched (so any file previously at the output path is preserved). -/
theorem goto_failure_leaves_fs_untouched (env : Env) (fs : FS) (e : Nat)
    (h : env.gotoErr = some e) :
    ((run env fs).trace.count (Event.screenshot outputPath false)) = 0 ∧
      ((run env fs).trace.count (Event.screenshot outputPath true)) = 0 ∧
      (run env fs).fs = fs := by
  rcases h1 : env.launchErr with _ | e1 <;>
    rcases h2 : env.newPageErr with _ | e2 <;>
    rcases h3 : env.registerErr with _ | e3 <;>
    rcases h4 : env.resolveErr with _ | e4 <;>
    simp_all [run, List.count_cons]

/-- C4 witness: with navigation raising exception `3` over the filesystem in
which every path holds content `99`, the file previously at the cwd-resolved
output path is left untouched. -/
theorem goto_failure_leaves_fs_untouched_witness :
    (run envGotoFail fsPrev).fs (abspath envGotoFail.cwd outputPath) = some 99 := by
  have h := (goto_failure_leaves_fs_untouched envGotoFail fsPrev 3 rfl).2.2
  exact congrFun h (abspath envGotoFail.cwd outputPath)

/-- C5: every invocation's trace is a sublist of the canonical eight-step
trace (launch, new page, observer registration, path resolution, navigation,
wait, screenshot, release — in that order), which has no duplicates, so every
invocation performs the steps in that exact order and each at most once; a
fully successful invocation performs exactly the canonical trace. -/
theorem steps_in_order_at_most_once (env : Env) (fs : FS) :
    List.Sublist (run env fs).trace (canonicalTrace env) ∧
      (canonicalTrace env).Nodup ∧
      ((run env fs).result = Except.ok () →
        (run env fs).trace = canonicalTrace env) := by
  refine ⟨?_, ?_, ?_⟩
  · rcases h1 : env.launchErr with _ | e1 <;>
      rcases h2 : env.newPageErr with _ | e2 <;>
      rcases h3 : env.registerErr with _ | e3 <;>
      rcases h4 : env.resolveErr with _ | e4 <;>
      rcases h5 : env.gotoErr with _ | e5 <;>
      rcases h6 : env.waitErr with _ | e6 <;>
      rcases h7 : env.screenshotErr with _ | e7 <;>
      simp_all [run, canonicalTrace]
  · simp [canonicalTrace]
  · intro h
    rcases h1 : env.launchErr with _ | e1 <;>
      rcases h2 : env.newPageErr with _ | e2 <;>
      rcases h3 : env.registerErr with _ | e3 <;>
      rcases h4 : env.resolveErr with _ | e4 <;>
      rcases h5 : env.gotoErr with _ | e5 <;>
      rcases h6 : env.waitErr with _ | e6 <;>
      rcases h7 : env.screenshotErr with _ | e7 <;>
      simp_all [run, canonicalTrace]

/-- C5 witness: on the all-success environment the trace is exactly the
canonical eight-step trace. -/
theorem steps_in_order_at_most_once_witness :
    (run envOk fs0).trace = canonicalTrace envOk :=
  (steps_in_order_at_most_once envOk fs0).2.2 rfl

/-- C6: the registered observer writes, for each delivered console message,
exactly one stdout line, the message text prefixed by the console marker and
nothing else; consequently, once the observer is registered, the run's stdout
is exactly one such line per delivered message. -/
theorem consoleObserver_one_line_per_message (msg : ConsoleMessage)
    (env : Env) (fs : FS) :
    consoleObserver msg = ["CONSOLE: " ++ msg.text] ∧
      (consoleObserver msg).length = 1 ∧
      (env.launchErr = none → env.newPageErr = none → env.registerErr = none →
        (run env fs).stdout =
            env.consoleMsgs.map (fun m => "CONSOLE: " ++ m.text) ∧
          (run env fs).stdout.length = env.consoleMsgs.length) := by
  refine ⟨rfl, rfl, ?_⟩
  intro h1 h2 h3
  rcases h4 : env.resolveErr with _ | e4 <;>
    rcases h5 : env.gotoErr with _ | e5 <;>
    rcases h6 : env.waitErr with _ | e6 <;>
    rcases h7 : env.screenshotErr with _ | e7 <;>
    simp_all [run, flatten_consoleObserver]

/-- C6 witness: on the all-success environment, which delivers the single
console message with text `ready`, stdout is the single prefixed line. -/
theorem consoleObserver_one_line_per_message_witness :
    (run envOk fs0).stdout = ["CONSOLE: ready"] := by
  have h :=
    (consoleObserver_one_line_per_message ⟨"ready"⟩ envOk fs0).2.2 rfl rfl rfl
  simpa [envOk] using h.1

/-- C7: on every successful run the trace is exactly the canonical one, in
which the unconditional `waitForTimeout` of 2000 milliseconds sits strictly
after navigation and strictly before the screenshot, and no wait of any other
duration ever occurs. -/
theorem settle_delay_2000ms_before_screenshot (env : Env) (fs : FS)
    (h : (run env fs).result = Except.ok ()) :
    settleDelayMs = 2000 ∧
      (run env fs).trace =
        [Event.launch, Event.newPage, Event.registerConsoleObserver,
          Event.resolvePath inputRelPath,
          Event.goto (fileUrl (abspath env.cwd inputRelPath)),
          Event.waitForTimeout 2000, Event.screenshot outputPath false,
          Event.releaseBrowser] ∧
      (∀ ms, (Event.waitForTimeout ms) ∈ (run env fs).trace → ms = 2000) := by
  rcases h1 : env.launchErr with _ | e1 <;>
    rcases h2 : env.newPageErr with _ | e2 <;>
    rcases h3 : env.registerErr with _ | e3 <;>
    rcases h4 : env.resolveErr with _ | e4 <;>
    rcases h5 : env.gotoErr with _ | e5 <;>
    rcases h6 : env.waitErr with _ | e6 <;>
    rcases h7 : env.screenshotErr with _ | e7 <;>
    simp_all [run, settleDelayMs]

/-- C7 witness: the successful concrete run's trace is the canonical list with
the 2000 ms wait between navigation and screenshot. -/
theorem settle_delay_2000ms_before_screenshot_witness :
    (run envOk fs0).trace =
      [Event.launch, Event.newPage, Event.registerConsoleObserver,
        Event.resolvePath inputRelPath,
        Event.goto (fileUrl (abspath envOk.cwd inputRelPath)),
        Event.waitForTimeout 2000, Event.screenshot outputPath false,
        Event.releaseBrowser] :=
  (settle_delay_2000ms_before_screenshot envOk fs0 rfl).2.1

/-- C8: once path resolution is reached, the navigation target is exactly the
scheme marker prepended to the absolute path obtained by resolving the fixed
relative input path against the working directory, and no navigation to any
other URL ever occurs. -/
theorem goto_url_file_scheme_abspath (env : Env) (fs : FS)
    (h1 : env.launchErr = none) (h2 : env.newPageErr = none)
    (h3 : env.registerErr = none) (h4 : env.resolveErr = none) :
    (Event.goto
        ("file://" ++ abspath env.cwd "jules-scratch/verification/index.html"))
        ∈ (run env fs).trace ∧
      (∀ u, (Event.goto u) ∈ (run env fs).trace →
        u = "file://" ++
          abspath env.cwd "jules-scratch/verification/index.html") := by
  rcases h5 : env.gotoErr with _ | e5 <;>
    rcases h6 : env.waitErr with _ | e6 <;>
    rcases h7 : env.screenshotErr with _ | e7 <;>
    simp_all [run, fileUrl, inputRelPath]

/-- C8 witness: on the all-success environment the navigated URL is exactly
the scheme marker plus the cwd-resolved input path. -/
theorem goto_url_file_scheme_abspath_witness :
    (Event.goto
        ("file://" ++ abspath "/repo" "jules-scratch/verification/index.html"))
        ∈ (run envOk fs0).trace :=
  (goto_url_file_scheme_abspath envOk fs0 rfl rfl rfl rfl).1

/-- C9 (implicit): both filesystem locations the program uses are resolved
against the working directory at call time — two fully successful invocations
whose environments differ in working directory navigate to different resolved
input paths and write their screenshots at different resolved output
locations. -/
theorem paths_resolved_against_cwd (e1 e2 : Env) (fs : FS)
    (h1 : allOk e1) (h2 : allOk e2) (hne : e1.cwd = e2.cwd → False) :
    (abspath e1.cwd inputRelPath = abspath e2.cwd inputRelPath → False) ∧
      (abspath e1.cwd outputPath = abspath e2.cwd outputPath → False) ∧
      (Event.goto (fileUrl (abspath e1.cwd inputRelPath))) ∈ (run e1 fs).trace ∧
      (run e1 fs).fs (abspath e1.cwd outputPath) = some e1.screenshotBytes ∧
      (run e2 fs).fs (abspath e2.cwd outputPath) = some e2.screenshotBytes := by
  refine ⟨?_, ?_, ?_, ?_, ?_⟩
  · intro h
    exact hne (abspath_cwd_injective e1.cwd e2.cwd inputRelPath h)
  · intro h
    exact hne (abspath_cwd_injective e1.cwd e2.cwd outputPath h)
  · rw [run_allOk e1 fs h1]
    simp [canonicalTrace]
  · rw [run_allOk e1 fs h1]
    simp
  · rw [run_allOk e2 fs h2]
    simp

/-- C9 witness: the runs from working directories containing the repository at
two different locations each write at their own cwd-resolved output path, and
those resolved paths differ. -/
theorem paths_resolved_against_cwd_witness :
    (abspath envOk.cwd outputPath = abspath envOtherCwd.cwd outputPath →
        False) ∧
      (run envOtherCwd fs0).fs (abspath envOtherCwd.cwd outputPath) =
        some envOtherCwd.screenshotBytes := by
  have h :=
    paths_resolved_against_cwd envOk envOtherCwd fs0 (by decide) (by decide)
      (by decide)
  exact ⟨h.2.1, h.2.2.2.2⟩

/-- C10 (implicit): the guarded top level runs the script only when invoked as
the main program; importing the module under any other name performs no run at
all (no browser launch, no navigation, no filesystem access, no output). -/
theorem main_guard_no_side_effects_on_import (name : String) (env : Env)
    (fs : FS) (h : name = "__main__" → False) :
    moduleMain name env fs = none ∧
      moduleMain "__main__" env fs = some (run env fs) := by
  refine ⟨?_, ?_⟩
  · simp only [moduleMain, if_neg h]
  · simp [moduleMain]

/-- C10 witness: importing the module under the name `verify_map` performs no
run, while invoking it as the main program performs exactly one. -/
theorem main_guard_no_side_effects_on_import_witness :
    moduleMain "verify_map" envOk fs0 = none ∧
      moduleMain "__main__" envOk fs0 = some (run envOk fs0) :=
  main_guard_no_side_effects_on_import "verify_map" envOk fs0 (by decide)
